import Mathlib

/-!
Verification development for the aligned_layer bootstrap/provisioning core.

Shallow embedding of:
* `VerifySp1Proof` (Go, package sp1): the proof verification gate that hands a
  fixed-capacity buffer and a declared length to the external C verifier
  `verify_sp1_proof_ffi`.
* `NewConfig` / `Config.validate` (Go, `core/config/config.go`): configuration
  assembly, manifest-file existence checks, ECDSA key parsing (with the `0x`
  prefix handling of `crypto.HexToECDSA`), and required-address validation.
* `CredibleAlignedLayerDeployer.run` (Solidity,
  `contracts/script/AlignedLayerDeployer.s.sol`): the contract provisioning
  orchestrator, embedded as a deterministic trace of deployment events with a
  fresh-address counter standing in for contract creation.

Machine integers are modelled as `Nat` with explicit `% 2 ^ w` where the source
truncates; fallible code returns `Option` or an explicit outcome type; Go
`panic` (both deliberate `panic(...)` calls and runtime panics such as
slice-bounds violations) is a distinct outcome from a returned `error`.
-/

namespace AlignedLayer

/-! ## Proof verification gate (Go package sp1)

Source:
```
const MAX_PROOF_SIZE = 1024 * 1024
func VerifySp1Proof(proofBuffer [MAX_PROOF_SIZE]byte, proofLen uint) bool {
    proofPtr := (*C.uchar)(unsafe.Pointer(&proofBuffer[0]))
    return (bool)(C.verify_sp1_proof_ffi(proofPtr, (C.uint)(proofLen)))
}
```
The external verifier `verify_sp1_proof_ffi` is opaque; it is modelled as a
function parameter `ffi` receiving the buffer (the pointer gives it access to
the whole array) and the length after the Go `uint` → C `uint` conversion
(truncation mod `2 ^ 32`).  The gate records every FFI invocation so that
"the verifier was (not) invoked" is expressible. -/

def MAX_PROOF_SIZE : Nat := 1024 * 1024

/-- One invocation of `verify_sp1_proof_ffi`: the buffer the passed pointer
points into, and the length argument as received by the C side. -/
structure FfiCall where
  buffer : List Nat
  len : Nat
  deriving DecidableEq, Repr

/-- The bytes the C verifier reads through the pointer for a call: the first
`len` bytes of the buffer. -/
def forwardedBytes (c : FfiCall) : List Nat :=
  c.buffer.take c.len

/-- Embedding of `VerifySp1Proof`.  Returns the boolean handed back by the
external verifier (cast unchanged) together with the list of FFI invocations
performed.  The source performs no length validation: it always makes exactly
one FFI call, with the length truncated to a C `uint`. -/
def VerifySp1Proof (ffi : List Nat → Nat → Bool) (proofBuffer : List Nat)
    (proofLen : Nat) : Bool × List FfiCall :=
  let cLen := proofLen % 2 ^ 32
  (ffi proofBuffer cLen, [⟨proofBuffer, cLen⟩])

/-! ## Hex decoding and ECDSA key parsing (go-ethereum semantics)

`crypto.HexToECDSA` = `hex.DecodeString` (strict: even length, hex digits
only) followed by `toECDSA` with `strict = true`: exactly 32 bytes, and the
scalar `d` must satisfy `0 < d < secp256k1N`. -/

/-- Value of a hex digit (`0-9`, `a-f`, `A-F`), as in Go's `encoding/hex`. -/
def hexDigitVal (c : Char) : Option Nat :=
  if 48 ≤ c.toNat ∧ c.toNat ≤ 57 then some (c.toNat - 48)
  else if 97 ≤ c.toNat ∧ c.toNat ≤ 102 then some (c.toNat - 87)
  else if 65 ≤ c.toNat ∧ c.toNat ≤ 70 then some (c.toNat - 55)
  else none

/-- Strict hex decoding (`hex.DecodeString` with the error propagated):
fails on odd length or on any non-hex character. -/
def decodeHexStrict : List Char → Option (List Nat)
  | [] => some []
  | [_] => none
  | c1 :: c2 :: rest =>
    match hexDigitVal c1, hexDigitVal c2, decodeHexStrict rest with
    | some h, some l, some bs => some ((16 * h + l) :: bs)
    | _, _, _ => none

/-- The order of the secp256k1 group (`secp256k1N` in go-ethereum). -/
def secp256k1N : Nat :=
  115792089237316195423570985008687907852837564279074904382605163141518161494337

/-- Big-endian bytes to natural number (`new(big.Int).SetBytes`). -/
def bytesToNat (bs : List Nat) : Nat :=
  bs.foldl (fun a b => a * 256 + b) 0

/-- Embedding of `crypto.HexToECDSA`: strict hex decode, exactly 32 bytes,
scalar in the open range `(0, secp256k1N)`.  Returns the private scalar. -/
def hexToECDSA (s : List Char) : Option Nat :=
  match decodeHexStrict s with
  | none => none
  | some bs =>
    if bs.length = 32 then
      let d := bytesToNat bs
      if d < secp256k1N then
        if 0 < d then some d else none
      else none
    else none

/-- Outcome of the key-parsing fragment of `NewConfig`. -/
inductive KeyParse where
  | panicSlice : KeyParse
  | invalidKey : KeyParse
  | ok : Nat → KeyParse
  deriving DecidableEq, Repr

/-- Embedding of `NewConfig`'s key handling (config.go lines 119-127):
```
if ecdsaPrivateKeyString[:2] == "0x" {
    ecdsaPrivateKeyString = ecdsaPrivateKeyString[2:]
}
ecdsaPrivateKey, err := crypto.HexToECDSA(ecdsaPrivateKeyString)
```
Go evaluates `s[:2]` unconditionally, so a string shorter than two bytes
raises a runtime slice-bounds panic (`KeyParse.panicSlice`); an undecodable
remainder yields the `HexToECDSA` error (`KeyParse.invalidKey`). -/
def parseEcdsaKey (s : List Char) : KeyParse :=
  if s.length < 2 then KeyParse.panicSlice
  else
    let s' := if s.take 2 = ['0', 'x'] then s.drop 2 else s
    match hexToECDSA s' with
    | none => KeyParse.invalidKey
    | some k => KeyParse.ok k

/-! ## Addresses (go-ethereum `common.HexToAddress`)

`HexToAddress(s) = BytesToAddress(FromHex(s))`. `FromHex` strips a leading
`0x`/`0X`, left-pads an odd-length string with one `0`, and decodes greedily
(`Hex2Bytes` drops the decode error, keeping the bytes decoded before it).
`BytesToAddress` keeps the low 20 bytes.  Addresses are `Nat < 2 ^ 160`. -/

/-- `has0xPrefix` of go-ethereum: the string starts with `0x` or `0X`. -/
def leading0x : List Char → Bool
  | c1 :: c2 :: _ => c1 = '0' ∧ (c2 = 'x' ∨ c2 = 'X')
  | _ => false

/-- Greedy hex decode (`Hex2Bytes`): decode complete pairs until a non-hex
character (or the end); the error from `hex.DecodeString` is discarded. -/
def hex2Bytes : List Char → List Nat
  | c1 :: c2 :: rest =>
    match hexDigitVal c1, hexDigitVal c2 with
    | some h, some l => (16 * h + l) :: hex2Bytes rest
    | _, _ => []
  | _ => []

/-- `common.FromHex`. -/
def fromHex (s : List Char) : List Nat :=
  let s1 := if leading0x s then s.drop 2 else s
  let s2 := if s1.length % 2 = 1 then '0' :: s1 else s1
  hex2Bytes s2

/-- `common.BytesToAddress`: the low 20 bytes as a number. -/
def bytesToAddress (bs : List Nat) : Nat :=
  bytesToNat bs % 2 ^ 160

/-- `common.HexToAddress`. -/
def hexToAddress (s : String) : Nat :=
  bytesToAddress (fromHex s.data)

/-! ## Configuration assembly (`core/config/config.go`)

`Config` keeps the source's fields; the opaque handles (`Logger`,
`EthHttpClient`, `EthWsClient`, `Signer`) are represented by the data the
claims need: the signer is represented by the chain id it is bound to, and
client construction is tracked in the step trace.  Keys and addresses are
`Nat`. -/

structure Config where
  ecdsaPrivateKey : Nat
  eigenMetricsIpPortAddress : String
  ethRpcUrl : String
  blsOperatorStateRetrieverAddr : Nat
  alignedLayerServiceManagerAddr : Nat
  blsPublicKeyCompendiumAddress : Nat
  slasherAddr : Nat
  aggregatorServerIpPortAddr : String
  registerOperatorOnStartup : Bool
  signerChainId : Nat
  operatorAddress : Nat
  avsServiceManagerAddress : Nat
  enableMetrics : Bool
  deriving DecidableEq, Repr

/-- Result of `Config.validate`: the method either panics or returns. -/
inductive ValidateResult where
  | panicked : String → ValidateResult
  | ok : ValidateResult
  deriving DecidableEq, Repr

/-- Embedding of `(c *Config) validate()` (config.go lines 168-176): panics
when `BlsOperatorStateRetrieverAddr` or `AlignedLayerServiceManagerAddr`
equals `common.HexToAddress("")` (the zero address); checks nothing else. -/
def Config.validate (c : Config) : ValidateResult :=
  if c.blsOperatorStateRetrieverAddr = hexToAddress "" then
    ValidateResult.panicked "Config: BLSOperatorStateRetrieverAddr is required"
  else if c.alignedLayerServiceManagerAddr = hexToAddress "" then
    ValidateResult.panicked "Config: AlignedLayerServiceManagerAddr is required"
  else ValidateResult.ok

/-- The fields of `ConfigRaw` read from the YAML config file. -/
structure ConfigRaw where
  environment : String
  ethRpcUrl : String
  ethWsUrl : String
  aggregatorServerIpPortAddr : String
  registerOperatorOnStartup : Bool
  blsPubkeyCompendiumAddr : String
  avsServiceManagerAddress : String
  enableMetrics : Bool
  deriving DecidableEq, Repr

/-- The ambient world `NewConfig` runs in: CLI flag values, the file system
(`fileExists` models `os.Stat`), the parsed manifest fields, and the
success/failure of each external constructor (logger, the two eth clients,
chain-id query, signer).  `addrOfKey` models the deterministic
`sdkutils.EcdsaPrivateKeyToAddress`. -/
structure Env where
  configFilePath : String
  alignedLayerDeploymentFilePath : String
  sharedAvsDeploymentFilePath : String
  fileExists : String → Bool
  configRaw : ConfigRaw
  alignedLayerServiceManagerAddrRaw : String
  blsOperatorStateRetrieverAddrRaw : String
  loggerFails : Bool
  httpClientFails : Bool
  wsClientFails : Bool
  ecdsaPrivateKeyString : List Char
  addrOfKey : Nat → Nat
  chainIdResult : Option Nat
  signerFails : Bool

/-- The externally visible actions `NewConfig` performs, in order. -/
inductive Step where
  | readYamlConfig
  | statAlignedManifest
  | readAlignedManifest
  | statSharedManifest
  | readSharedManifest
  | newLogger
  | newHttpClient
  | newWsClient
  | parseEcdsaKeyStep
  | deriveOperatorAddr
  | queryChainId
  | newSigner
  | validateConfig
  deriving DecidableEq, Repr

/-- How a `NewConfig` run ends: a Go `panic` (deliberate or runtime), an
`error` return, or a `*Config`. -/
inductive Outcome where
  | panicked : String → Outcome
  | errored : Outcome
  | ok : Config → Outcome
  deriving DecidableEq, Repr

/-- The `Config` literal built at config.go lines 147-163 (the fields holding
opaque handles are represented as described on `Config`).  `SlasherAddr` is
assigned `common.HexToAddress("")` in the source. -/
def mkConfig (env : Env) (k cid : Nat) : Config :=
  { ecdsaPrivateKey := k
    eigenMetricsIpPortAddress := ""
    ethRpcUrl := env.configRaw.ethRpcUrl
    blsOperatorStateRetrieverAddr := hexToAddress env.blsOperatorStateRetrieverAddrRaw
    alignedLayerServiceManagerAddr := hexToAddress env.alignedLayerServiceManagerAddrRaw
    blsPublicKeyCompendiumAddress := hexToAddress env.configRaw.blsPubkeyCompendiumAddr
    slasherAddr := hexToAddress ""
    aggregatorServerIpPortAddr := env.configRaw.aggregatorServerIpPortAddr
    registerOperatorOnStartup := env.configRaw.registerOperatorOnStartup
    signerChainId := cid
    operatorAddress := env.addrOfKey k
    avsServiceManagerAddress := hexToAddress env.configRaw.avsServiceManagerAddress
    enableMetrics := env.configRaw.enableMetrics }

/-- Embedding of `NewConfig` (config.go lines 78-166), in source order:
YAML config read (errors ignored by the source), `os.Stat` + panic for each
of the two deployment manifest files, logger construction, HTTP client, WS
client, ECDSA key parsing (see `parseEcdsaKey`), operator address
derivation, chain-id query, signer construction, `Config` literal, and
`config.validate()` (whose panic propagates).  Returns the outcome and the
trace of steps reached. -/
def NewConfigRun (env : Env) : Outcome × List Step :=
  let steps1 : List Step :=
    if env.configFilePath ≠ "" then [Step.readYamlConfig] else []
  if env.fileExists env.alignedLayerDeploymentFilePath = false then
    (Outcome.panicked ("Path " ++ env.alignedLayerDeploymentFilePath ++ " does not exist"),
      steps1 ++ [Step.statAlignedManifest])
  else
    let steps2 := steps1 ++ [Step.statAlignedManifest, Step.readAlignedManifest]
    if env.fileExists env.sharedAvsDeploymentFilePath = false then
      (Outcome.panicked ("Path " ++ env.sharedAvsDeploymentFilePath ++ " does not exist"),
        steps2 ++ [Step.statSharedManifest])
    else
      let steps3 := steps2 ++ [Step.statSharedManifest, Step.readSharedManifest, Step.newLogger]
      if env.loggerFails then (Outcome.errored, steps3)
      else
        let steps4 := steps3 ++ [Step.newHttpClient]
        if env.httpClientFails then (Outcome.errored, steps4)
        else
          let steps5 := steps4 ++ [Step.newWsClient]
          if env.wsClientFails then (Outcome.errored, steps5)
          else
            let steps6 := steps5 ++ [Step.parseEcdsaKeyStep]
            match parseEcdsaKey env.ecdsaPrivateKeyString with
            | KeyParse.panicSlice =>
                (Outcome.panicked "runtime error: slice bounds out of range", steps6)
            | KeyParse.invalidKey => (Outcome.errored, steps6)
            | KeyParse.ok k =>
                let steps7 := steps6 ++ [Step.deriveOperatorAddr, Step.queryChainId]
                match env.chainIdResult with
                | none => (Outcome.errored, steps7)
                | some cid =>
                    let steps8 := steps7 ++ [Step.newSigner]
                    if env.signerFails then (Outcome.errored, steps8)
                    else
                      let steps9 := steps8 ++ [Step.validateConfig]
                      match Config.validate (mkConfig env k cid) with
                      | ValidateResult.panicked msg => (Outcome.panicked msg, steps9)
                      | ValidateResult.ok => (Outcome.ok (mkConfig env k cid), steps9)

/-! ## Contract provisioning orchestrator
(`contracts/script/AlignedLayerDeployer.s.sol`)

The script is deterministic: a run is embedded as the list of deployment
actions it performs, in source order.  Contract creation (`new ...`) is
modelled by a fresh-address counter starting at `startAddr`; every `new`
takes the next address, in the textual order of execution.  External
addresses read from the eigenlayer / shared-avs JSON outputs are inputs. -/

/-- Deployment constants of `CredibleAlignedLayerDeployer`. -/
def QUORUM_THRESHOLD_PERCENTAGE : Nat := 100

def TASK_RESPONSE_WINDOW_BLOCK : Nat := 30

def TASK_DURATION_BLOCKS : Nat := 0

def AGGREGATOR_ADDR : Nat := 0xa0Ee7A142d267C1f36714E4a8F75612F20a79720

def TASK_GENERATOR_ADDR : Nat := 0xa0Ee7A142d267C1f36714E4a8F75612F20a79720

def oneEther : Nat := 10 ^ 18

/-- Addresses the script reads from previously produced JSON outputs, the
broadcast sender (`msg.sender`), and the first fresh contract address. -/
structure DeployInputs where
  strategyManager : Nat
  delegationManager : Nat
  slasher : Nat
  eigenLayerProxyAdmin : Nat
  eigenLayerPauserReg : Nat
  pubkeyCompendium : Nat
  baseStrategyImplementation : Nat
  sender : Nat
  startAddr : Nat
  deriving DecidableEq, Repr

/-- One action of the deployer run.  `newTransparentProxy addr impl admin
sel args` is `new TransparentUpgradeableProxy(impl, admin, data)` where the
initializer call data is flattened to a selector name and its
address/number arguments (empty selector for empty data).  The six
implementation constructors record their constructor arguments. -/
inductive Ev where
  | newERC20Mock : Nat → Ev
  | newTransparentProxy : Nat → Nat → Nat → String → List Nat → Ev
  | whitelistStrategy : Nat → List Nat → Ev
  | newProxyAdmin : Nat → Ev
  | newPauserRegistry : Nat → List Nat → Nat → Ev
  | newEmptyContract : Nat → Ev
  | newStakeRegistryImpl : Nat → Nat → Nat → Nat → Ev
  | newRegistryCoordinatorImpl : Nat → Nat → Nat → Nat → Nat → Nat → Ev
  | newBLSPubkeyRegistryImpl : Nat → Nat → Nat → Ev
  | newIndexRegistryImpl : Nat → Nat → Ev
  | newServiceManagerImpl : Nat → Nat → Nat → Nat → Ev
  | newTaskManagerImpl : Nat → Nat → Nat → Ev
  | upgrade : Nat → Nat → Ev
  | upgradeAndCall : Nat → Nat → String → List Nat → Ev
  | serializeAddress : String → Nat → Ev
  | writeOutput : String → Ev
  deriving DecidableEq, Repr

/-- Final state of a deployer run: the event trace plus the contract state
variables of `CredibleAlignedLayerDeployer` (proxy and implementation
addresses). -/
structure DeployResult where
  events : List Ev
  erc20Mock : Nat
  erc20MockStrategy : Nat
  credibleAlignedLayerProxyAdmin : Nat
  credibleAlignedLayerPauserReg : Nat
  emptyContract : Nat
  credibleAlignedLayerServiceManager : Nat
  credibleAlignedLayerTaskManager : Nat
  registryCoordinator : Nat
  blsPubkeyRegistry : Nat
  indexRegistry : Nat
  stakeRegistry : Nat
  stakeRegistryImplementation : Nat
  registryCoordinatorImplementation : Nat
  blsPubkeyRegistryImplementation : Nat
  indexRegistryImplementation : Nat
  credibleAlignedLayerServiceManagerImplementation : Nat
  credibleAlignedLayerTaskManagerImplementation : Nat
  deriving DecidableEq, Repr

/-- Embedding of `run()`: it first calls
`_deployErc20AndStrategyAndWhitelistStrategy` (ERC20 mock, strategy proxy
initialized against `baseStrategyImplementation` under the eigenlayer proxy
admin, then `strategyManager.addStrategiesToDepositWhitelist`), and then
`_deployCredibleAlignedLayerContracts` (proxy admin, pauser registry, empty
contract, the six empty-implementation proxy shells, then each
implementation followed by its `upgrade` / `upgradeAndCall`, then the
`vm.serializeAddress` calls and `writeOutput`).  Addresses are allocated by
the fresh counter in `new`-execution order. -/
def runScript (inp : DeployInputs) : DeployResult :=
  -- _deployErc20AndStrategyAndWhitelistStrategy
  let erc20Mock := inp.startAddr
  let erc20MockStrategy := inp.startAddr + 1
  -- _deployCredibleAlignedLayerContracts
  let proxyAdmin := inp.startAddr + 2
  let pauserReg := inp.startAddr + 3
  let emptyContract := inp.startAddr + 4
  let serviceManager := inp.startAddr + 5
  let taskManager := inp.startAddr + 6
  let registryCoordinator := inp.startAddr + 7
  let blsPubkeyRegistry := inp.startAddr + 8
  let indexRegistry := inp.startAddr + 9
  let stakeRegistry := inp.startAddr + 10
  let stakeRegistryImpl := inp.startAddr + 11
  let registryCoordinatorImpl := inp.startAddr + 12
  let blsPubkeyRegistryImpl := inp.startAddr + 13
  let indexRegistryImpl := inp.startAddr + 14
  let serviceManagerImpl := inp.startAddr + 15
  let taskManagerImpl := inp.startAddr + 16
  { events :=
      [ Ev.newERC20Mock erc20Mock,
        Ev.newTransparentProxy erc20MockStrategy inp.baseStrategyImplementation
          inp.eigenLayerProxyAdmin "StrategyBaseTVLLimits.initialize"
          [oneEther, 100 * oneEther, erc20Mock, inp.eigenLayerPauserReg],
        Ev.whitelistStrategy inp.strategyManager [erc20MockStrategy],
        Ev.newProxyAdmin proxyAdmin,
        Ev.newPauserRegistry pauserReg [inp.sender, inp.sender] inp.sender,
        Ev.newEmptyContract emptyContract,
        Ev.newTransparentProxy serviceManager emptyContract proxyAdmin "" [],
        Ev.newTransparentProxy taskManager emptyContract proxyAdmin "" [],
        Ev.newTransparentProxy registryCoordinator emptyContract proxyAdmin "" [],
        Ev.newTransparentProxy blsPubkeyRegistry emptyContract proxyAdmin "" [],
        Ev.newTransparentProxy indexRegistry emptyContract proxyAdmin "" [],
        Ev.newTransparentProxy stakeRegistry emptyContract proxyAdmin "" [],
        Ev.newStakeRegistryImpl stakeRegistryImpl registryCoordinator
          inp.strategyManager serviceManager,
        Ev.upgradeAndCall stakeRegistry stakeRegistryImpl "StakeRegistry.initialize"
          [0, erc20MockStrategy, oneEther],
        Ev.newRegistryCoordinatorImpl registryCoordinatorImpl inp.slasher
          serviceManager stakeRegistry blsPubkeyRegistry indexRegistry,
        Ev.upgradeAndCall registryCoordinator registryCoordinatorImpl
          "BLSRegistryCoordinatorWithIndices.initialize"
          [inp.sender, inp.sender, 10000, 15000, 100, pauserReg, 0],
        Ev.newBLSPubkeyRegistryImpl blsPubkeyRegistryImpl registryCoordinator
          inp.pubkeyCompendium,
        Ev.upgrade blsPubkeyRegistry blsPubkeyRegistryImpl,
        Ev.newIndexRegistryImpl indexRegistryImpl registryCoordinator,
        Ev.upgrade indexRegistry indexRegistryImpl,
        Ev.newServiceManagerImpl serviceManagerImpl registryCoordinator
          inp.slasher taskManager,
        Ev.upgradeAndCall serviceManager serviceManagerImpl
          "AlignedLayerServiceManager.initialize" [pauserReg, inp.sender],
        Ev.newTaskManagerImpl taskManagerImpl registryCoordinator
          TASK_RESPONSE_WINDOW_BLOCK,
        Ev.upgradeAndCall taskManager taskManagerImpl
          "AlignedLayerTaskManager.initialize"
          [pauserReg, inp.sender, AGGREGATOR_ADDR, TASK_GENERATOR_ADDR,
            QUORUM_THRESHOLD_PERCENTAGE],
        Ev.serializeAddress "erc20Mock" erc20Mock,
        Ev.serializeAddress "erc20MockStrategy" erc20MockStrategy,
        Ev.serializeAddress "alignedLayerServiceManager" serviceManager,
        Ev.serializeAddress "alignedLayerServiceManagerImplementation" serviceManagerImpl,
        Ev.serializeAddress "alignedLayerTaskManager" taskManager,
        Ev.serializeAddress "alignedLayerTaskManagerImplementation" taskManagerImpl,
        Ev.serializeAddress "registryCoordinator" registryCoordinator,
        Ev.serializeAddress "registryCoordinatorImplementation" registryCoordinatorImpl,
        Ev.writeOutput "aligned_layer_avs_deployment_output" ]
    erc20Mock := erc20Mock
    erc20MockStrategy := erc20MockStrategy
    credibleAlignedLayerProxyAdmin := proxyAdmin
    credibleAlignedLayerPauserReg := pauserReg
    emptyContract := emptyContract
    credibleAlignedLayerServiceManager := serviceManager
    credibleAlignedLayerTaskManager := taskManager
    registryCoordinator := registryCoordinator
    blsPubkeyRegistry := blsPubkeyRegistry
    indexRegistry := indexRegistry
    stakeRegistry := stakeRegistry
    stakeRegistryImplementation := stakeRegistryImpl
    registryCoordinatorImplementation := registryCoordinatorImpl
    blsPubkeyRegistryImplementation := blsPubkeyRegistryImpl
    indexRegistryImplementation := indexRegistryImpl
    credibleAlignedLayerServiceManagerImplementation := serviceManagerImpl
    credibleAlignedLayerTaskManagerImplementation := taskManagerImpl }

/-! ### Phase predicates and ordering -/

/-- Phase-A events: deployment of an upgradeable proxy shell (a
`TransparentUpgradeableProxy` created with empty initializer data). -/
def isPhaseAShellEvent : Ev → Bool
  | Ev.newTransparentProxy _ _ _ sel _ => sel == ""
  | _ => false

/-- Phase-B events: the auxiliary non-upgradeable resources — the ERC20
mock, the strategy proxy (initialized at construction), and the
strategy-manager allow-list registration. -/
def isPhaseBEvent : Ev → Bool
  | Ev.newERC20Mock _ => true
  | Ev.newTransparentProxy _ _ _ sel _ => sel == "StrategyBaseTVLLimits.initialize"
  | Ev.whitelistStrategy _ _ => true
  | _ => false

/-- Implementation-contract deployments (Phase C). -/
def isImplDeployEvent : Ev → Bool
  | Ev.newStakeRegistryImpl _ _ _ _ => true
  | Ev.newRegistryCoordinatorImpl _ _ _ _ _ _ => true
  | Ev.newBLSPubkeyRegistryImpl _ _ _ => true
  | Ev.newIndexRegistryImpl _ _ => true
  | Ev.newServiceManagerImpl _ _ _ _ => true
  | Ev.newTaskManagerImpl _ _ _ => true
  | _ => false

/-- `allPBeforeQ p q evs` holds when every `p`-event occurs strictly before
every `q`-event: once a `q`-event has occurred, no `p`-event follows (and no
event is both). -/
def allPBeforeQ (p q : Ev → Bool) : List Ev → Bool
  | [] => true
  | e :: rest =>
      if q e then !p e && rest.all (fun x => !p x) && allPBeforeQ p q rest
      else allPBeforeQ p q rest

/-- The addresses serialized into the output manifest, with their JSON keys,
in serialization order. -/
def serializedPairs (evs : List Ev) : List (String × Nat) :=
  evs.filterMap (fun e =>
    match e with
    | Ev.serializeAddress key v => some (key, v)
    | _ => none)

/-- The component final addresses named by the manifest-completeness claim:
service manager, task manager, registry coordinator, BLS pubkey registry,
index registry, stake registry (each component's final address is its proxy
address), ERC20 mock, strategy. -/
def componentFinalAddrs (r : DeployResult) : List Nat :=
  [r.credibleAlignedLayerServiceManager, r.credibleAlignedLayerTaskManager,
   r.registryCoordinator, r.blsPubkeyRegistry, r.indexRegistry,
   r.stakeRegistry, r.erc20Mock, r.erc20MockStrategy]

/-- The manifest-completeness claim as a boolean: every component final
address occurs among the serialized addresses. -/
def everyComponentSerialized (r : DeployResult) : Bool :=
  (componentFinalAddrs r).all (fun a => (serializedPairs r.events).any (fun p => p.2 == a))

/-- A concrete, arbitrary instantiation of the deployer inputs, used for
counterexamples. -/
def sampleInputs : DeployInputs :=
  { strategyManager := 1001
    delegationManager := 1002
    slasher := 1003
    eigenLayerProxyAdmin := 1004
    eigenLayerPauserReg := 1005
    pubkeyCompendium := 1006
    baseStrategyImplementation := 1007
    sender := 1008
    startAddr := 2000 }

/-! ## Concrete sample inputs for witnesses and counterexamples -/

/-- A valid 64-character hex scalar encoding (the scalar 1). -/
def sampleKey : List Char := List.replicate 63 '0' ++ ['1']

/-- An environment in which every external step succeeds: both manifest
files exist, the manifests and the YAML config carry non-zero addresses, and
the private key is `sampleKey`. -/
def goodEnv : Env :=
  { configFilePath := "config-files/aggregator.yaml"
    alignedLayerDeploymentFilePath := "contracts/script/output/aligned_layer_avs_deployment_output.json"
    sharedAvsDeploymentFilePath := "contracts/script/output/shared_avs_contracts_deployment_output.json"
    fileExists := fun _ => true
    configRaw :=
      { environment := "production"
        ethRpcUrl := "http://localhost:8545"
        ethWsUrl := "ws://localhost:8545"
        aggregatorServerIpPortAddr := "localhost:8090"
        registerOperatorOnStartup := false
        blsPubkeyCompendiumAddr := "0x03"
        avsServiceManagerAddress := "0x04"
        enableMetrics := false }
    alignedLayerServiceManagerAddrRaw := "0x02"
    blsOperatorStateRetrieverAddrRaw := "0x01"
    loggerFails := false
    httpClientFails := false
    wsClientFails := false
    ecdsaPrivateKeyString := sampleKey
    addrOfKey := fun k => k + 7
    chainIdResult := some 31337
    signerFails := false }

/-- The configuration `NewConfigRun goodEnv` produces. -/
def goodConfig : Config :=
  { ecdsaPrivateKey := 1
    eigenMetricsIpPortAddress := ""
    ethRpcUrl := "http://localhost:8545"
    blsOperatorStateRetrieverAddr := 1
    alignedLayerServiceManagerAddr := 2
    blsPublicKeyCompendiumAddress := 3
    slasherAddr := 0
    aggregatorServerIpPortAddr := "localhost:8090"
    registerOperatorOnStartup := false
    signerChainId := 31337
    operatorAddress := 8
    avsServiceManagerAddress := 4
    enableMetrics := false }

/-- `goodEnv` with a file system on which no path exists. -/
def badEnv : Env := { goodEnv with fileExists := fun _ => false }

/-! ## Helper lemmas -/

/-- A successful strict hex decode consumes exactly two characters per
byte. -/
theorem decodeHexStrict_length : ∀ (s : List Char) (bs : List Nat),
    decodeHexStrict s = some bs → s.length = 2 * bs.length
  | [], bs, h => by
      simp only [decodeHexStrict, Option.some.injEq] at h
      simp [← h]
  | [_], bs, h => by
      simp [decodeHexStrict] at h
  | c1 :: c2 :: rest, bs, h => by
      simp only [decodeHexStrict] at h
      cases h1 : hexDigitVal c1 <;> rw [h1] at h
      · simp at h
      · cases h2 : hexDigitVal c2 <;> rw [h2] at h
        · simp at h
        · cases h3 : decodeHexStrict rest <;> rw [h3] at h
          · simp at h
          · rename_i tail
            have ih := decodeHexStrict_length rest tail h3
            simp only [Option.some.injEq] at h
            subst h
            simp only [List.length_cons, ih]
            omega

/-- A successful strict hex decode of a list starting with two characters
requires the second character to be a hex digit. -/
theorem decodeHexStrict_snd_digit {c1 c2 : Char} {rest : List Char} {bs : List Nat}
    (h : decodeHexStrict (c1 :: c2 :: rest) = some bs) : hexDigitVal c2 ≠ none := by
  simp only [decodeHexStrict] at h
  cases h1 : hexDigitVal c1 <;> rw [h1] at h
  · simp at h
  · cases h2 : hexDigitVal c2
    · rw [h2] at h; simp at h
    · simp [h2]

/-- A string accepted by `HexToECDSA` has exactly 64 characters. -/
theorem hexToECDSA_some_length {s : List Char} {k : Nat} (h : hexToECDSA s = some k) :
    s.length = 64 := by
  unfold hexToECDSA at h
  split at h
  · simp at h
  · rename_i bs hd
    have hlen := decodeHexStrict_length s bs hd
    by_cases h32 : bs.length = 32
    · omega
    · rw [if_neg h32] at h
      simp at h

/-- A string accepted by `HexToECDSA` cannot start with `0x` (`x` is not a
hex digit), so `NewConfig` never strips such a string. -/
theorem hexToECDSA_some_no_marker {s : List Char} {k : Nat} (h : hexToECDSA s = some k) :
    ¬ s.take 2 = ['0', 'x'] := by
  have hlen := hexToECDSA_some_length h
  cases s with
  | nil => simp at hlen
  | cons c1 t =>
    cases t with
    | nil => simp at hlen
    | cons c2 rest =>
      intro htake
      have hx : c2 = 'x' := by
        have h2 : ([c1, c2] : List Char) = ['0', 'x'] := htake
        simp only [List.cons.injEq, and_true] at h2
        exact h2.2
      unfold hexToECDSA at h
      cases hd : decodeHexStrict (c1 :: c2 :: rest) <;> rw [hd] at h
      · simp at h
      · have h2 := decodeHexStrict_snd_digit hd
        rw [hx] at h2
        exact h2 (by decide)

/-- `NewConfigRun` returns a configuration only of the shape built at
config.go lines 147-163, and only after `validate` accepted it. -/
theorem newConfigRun_ok_inv (env : Env) (c : Config)
    (h : (NewConfigRun env).1 = Outcome.ok c) :
    ∃ k cid, c = mkConfig env k cid ∧ Config.validate c = ValidateResult.ok := by
  unfold NewConfigRun at h
  repeat' split at h
  all_goals simp_all
  all_goals exact ⟨_, _, h.symm⟩

/-- `Config.validate` accepts exactly the configurations whose two required
addresses are non-zero. -/
theorem validate_ok_iff (c : Config) :
    Config.validate c = ValidateResult.ok ↔
      (c.blsOperatorStateRetrieverAddr ≠ 0 ∧ c.alignedLayerServiceManagerAddr ≠ 0) := by
  unfold Config.validate
  have hzero : hexToAddress "" = 0 := by decide
  rw [hzero]
  by_cases h1 : c.blsOperatorStateRetrieverAddr = 0 <;>
    by_cases h2 : c.alignedLayerServiceManagerAddr = 0 <;>
    simp [h1, h2]

/-! ## Claim theorems -/

/-- C1: the claim states that for `length == 0` or `length > capacity`
(1048576) the gate returns `false` without invoking the external verifier.
The source performs no length check: at both failing inputs it makes exactly
one FFI call and returns whatever the verifier returns (here a spy verifier
answering `true`), so the gate neither rejects nor skips the invocation. -/
theorem gate_always_invokes_ffi :
    MAX_PROOF_SIZE = 1048576 ∧
    ((VerifySp1Proof (fun _ _ => true) (List.replicate MAX_PROOF_SIZE 0) 0).2.length = 1 ∧
      (VerifySp1Proof (fun _ _ => true) (List.replicate MAX_PROOF_SIZE 0) 0).1 = true) ∧
    ((VerifySp1Proof (fun _ _ => true) (List.replicate MAX_PROOF_SIZE 0)
        (MAX_PROOF_SIZE + 1)).2.length = 1 ∧
      (VerifySp1Proof (fun _ _ => true) (List.replicate MAX_PROOF_SIZE 0)
        (MAX_PROOF_SIZE + 1)).1 = true) :=
  ⟨rfl, ⟨rfl, rfl⟩, ⟨rfl, rfl⟩⟩

/-- C5: for `0 < length ≤ capacity` (1048576) the gate forwards the buffer
and exactly `length` (the C `uint` conversion does not truncate it) in a
single FFI call, so the verifier reads exactly `length` bytes of the
fixed-capacity buffer, and the gate returns the verifier's boolean
unchanged. -/
theorem gate_forwards_in_range (ffi : List Nat → Nat → Bool) (buf : List Nat) (len : Nat)
    (hbuf : buf.length = MAX_PROOF_SIZE) (h0 : 0 < len) (hcap : len ≤ MAX_PROOF_SIZE) :
    MAX_PROOF_SIZE = 1048576 ∧
    (VerifySp1Proof ffi buf len).1 = ffi buf len ∧
    (VerifySp1Proof ffi buf len).2 = [⟨buf, len⟩] ∧
    (forwardedBytes ⟨buf, len⟩).length = len := by
  have hlt : len < 4294967296 := by
    have hms : MAX_PROOF_SIZE = 1048576 := rfl
    omega
  refine ⟨rfl, ?_, ?_, ?_⟩
  · simp [VerifySp1Proof, Nat.mod_eq_of_lt hlt]
  · simp [VerifySp1Proof, Nat.mod_eq_of_lt hlt]
  · simp only [forwardedBytes, List.length_take, hbuf]
    omega

/-- Witness for C5 at `len = 1` on the all-zero full-capacity buffer with a
spy verifier answering `false`. -/
theorem gate_forwards_in_range_witness :
    (List.replicate MAX_PROOF_SIZE (0 : Nat)).length = MAX_PROOF_SIZE ∧
    (0 : Nat) < 1 ∧ (1 : Nat) ≤ MAX_PROOF_SIZE ∧
    (MAX_PROOF_SIZE = 1048576 ∧
      (VerifySp1Proof (fun _ _ => false) (List.replicate MAX_PROOF_SIZE 0) 1).1 =
        (fun _ _ => false : List Nat → Nat → Bool) (List.replicate MAX_PROOF_SIZE 0) 1 ∧
      (VerifySp1Proof (fun _ _ => false) (List.replicate MAX_PROOF_SIZE 0) 1).2 =
        [⟨List.replicate MAX_PROOF_SIZE 0, 1⟩] ∧
      (forwardedBytes ⟨List.replicate MAX_PROOF_SIZE 0, 1⟩).length = 1) :=
  ⟨by simp, by norm_num, by norm_num [MAX_PROOF_SIZE],
    gate_forwards_in_range _ _ _ (by simp) (by norm_num) (by norm_num [MAX_PROOF_SIZE])⟩

/-- C4: the claim states identity derivation fails with an
`InvalidKeyFormat`-class error and never panics, explicitly including the
empty string and strings shorter than two characters.  The source evaluates
`ecdsaPrivateKeyString[:2]` before any length check, so those inputs raise a
runtime slice-bounds panic instead of returning an error. -/
theorem short_key_panics :
    parseEcdsaKey [] = KeyParse.panicSlice ∧
    parseEcdsaKey ['1'] = KeyParse.panicSlice ∧
    KeyParse.panicSlice ≠ KeyParse.invalidKey := by
  decide

/-- C8: for every valid scalar encoding `s`, key parsing inside `NewConfig`
yields the same private key with or without a `0x` prefix: the prefix is
stripped when present (a valid encoding itself never starts with `0x`, so
stripping happens exactly once), and both derivations return the scalar
decoded from `s`.  The derived public address and the signer are
deterministic functions of this scalar, so they agree as well. -/
theorem key_derivation_ignores_0x (s : List Char) (k : Nat)
    (h : hexToECDSA s = some k) :
    parseEcdsaKey ('0' :: 'x' :: s) = KeyParse.ok k ∧
    parseEcdsaKey s = KeyParse.ok k ∧
    parseEcdsaKey ('0' :: 'x' :: s) = parseEcdsaKey s := by
  have hlen := hexToECDSA_some_length h
  have hmk := hexToECDSA_some_no_marker h
  have h1 : parseEcdsaKey ('0' :: 'x' :: s) = KeyParse.ok k := by
    unfold parseEcdsaKey
    rw [if_neg (by simp)]
    have htake : ('0' :: 'x' :: s).take 2 = ['0', 'x'] := rfl
    rw [if_pos htake]
    simp [h]
  have h2 : parseEcdsaKey s = KeyParse.ok k := by
    unfold parseEcdsaKey
    rw [if_neg (by omega), if_neg hmk]
    simp [h]
  exact ⟨h1, h2, h1.trans h2.symm⟩

/-- Witness for C8 at the valid encoding `sampleKey` (the scalar 1). -/
theorem key_derivation_ignores_0x_witness :
    hexToECDSA sampleKey = some 1 ∧
    (parseEcdsaKey ('0' :: 'x' :: sampleKey) = KeyParse.ok 1 ∧
      parseEcdsaKey sampleKey = KeyParse.ok 1 ∧
      parseEcdsaKey ('0' :: 'x' :: sampleKey) = parseEcdsaKey sampleKey) :=
  ⟨by decide, key_derivation_ignores_0x sampleKey 1 (by decide)⟩

/-- C6: a configuration is returned by `NewConfig` only with both required
addresses (operator-state retriever, aligned-layer service manager)
non-zero, and `validate` accepts a configuration exactly when both are
non-zero (any violation panics). -/
theorem required_addresses_nonzero :
    (∀ env c, (NewConfigRun env).1 = Outcome.ok c →
      c.blsOperatorStateRetrieverAddr ≠ 0 ∧ c.alignedLayerServiceManagerAddr ≠ 0) ∧
    (∀ c : Config, Config.validate c = ValidateResult.ok ↔
      (c.blsOperatorStateRetrieverAddr ≠ 0 ∧ c.alignedLayerServiceManagerAddr ≠ 0)) := by
  constructor
  · intro env c h
    obtain ⟨k, cid, hc, hval⟩ := newConfigRun_ok_inv env c h
    exact (validate_ok_iff c).mp hval
  · exact validate_ok_iff

/-- Witness for C6: a fully successful run (`goodEnv`) returns
`goodConfig`, whose required addresses are non-zero. -/
theorem required_addresses_nonzero_witness :
    (NewConfigRun goodEnv).1 = Outcome.ok goodConfig ∧
    (goodConfig.blsOperatorStateRetrieverAddr ≠ 0 ∧
      goodConfig.alignedLayerServiceManagerAddr ≠ 0) :=
  ⟨by decide, required_addresses_nonzero.1 goodEnv goodConfig (by decide)⟩

/-- C9: when either deployment manifest file is missing, `NewConfig` panics
(with the `Path ... does not exist` message) and neither the HTTP nor the
websocket chain client creation step is ever reached. -/
theorem missing_manifest_panics_before_chain (env : Env)
    (h : env.fileExists env.alignedLayerDeploymentFilePath = false ∨
      env.fileExists env.sharedAvsDeploymentFilePath = false) :
    (∃ msg, (NewConfigRun env).1 = Outcome.panicked msg) ∧
    Step.newHttpClient ∉ (NewConfigRun env).2 ∧
    Step.newWsClient ∉ (NewConfigRun env).2 := by
  unfold NewConfigRun
  by_cases h1 : env.fileExists env.alignedLayerDeploymentFilePath = false
  · rw [if_pos h1]
    refine ⟨⟨_, rfl⟩, ?_, ?_⟩ <;>
      by_cases hc : env.configFilePath ≠ "" <;> simp [hc]
  · rcases h with h | h
    · exact absurd h h1
    · rw [if_neg h1, if_pos h]
      refine ⟨⟨_, rfl⟩, ?_, ?_⟩ <;>
        by_cases hc : env.configFilePath ≠ "" <;> simp [hc]

/-- Witness for C9: in `badEnv` no file exists, `NewConfig` panics on the
aligned-layer manifest path, and no chain client step is in the trace. -/
theorem missing_manifest_panics_before_chain_witness :
    badEnv.fileExists badEnv.alignedLayerDeploymentFilePath = false ∧
    ((∃ msg, (NewConfigRun badEnv).1 = Outcome.panicked msg) ∧
      Step.newHttpClient ∉ (NewConfigRun badEnv).2 ∧
      Step.newWsClient ∉ (NewConfigRun badEnv).2) :=
  ⟨by decide, missing_manifest_panics_before_chain badEnv (Or.inl (by decide))⟩

/-- C10: every configuration `NewConfig` returns has
`SlasherAddr = common.HexToAddress("")` (the zero address), and `validate`
never inspects the slasher address. -/
theorem slasher_addr_always_zero :
    (∀ env c, (NewConfigRun env).1 = Outcome.ok c → c.slasherAddr = 0) ∧
    (∀ (c : Config) (a : Nat),
      Config.validate { c with slasherAddr := a } = Config.validate c) := by
  constructor
  · intro env c h
    obtain ⟨k, cid, hc, _⟩ := newConfigRun_ok_inv env c h
    subst hc
    have hz : hexToAddress "" = 0 := by decide
    exact hz
  · intro c a
    rfl

/-- Witness for C10: the successful run `NewConfigRun goodEnv` yields
`goodConfig`, whose `slasherAddr` is zero. -/
theorem slasher_addr_always_zero_witness :
    (NewConfigRun goodEnv).1 = Outcome.ok goodConfig ∧ goodConfig.slasherAddr = 0 :=
  ⟨by decide, slasher_addr_always_zero.1 goodEnv goodConfig (by decide)⟩

/-- C2 counterexample: the claim states Phase A (proxy shells) fully
completes before Phase B (mock ERC20, strategy, allow-list registration)
begins, but `run()` calls `_deployErc20AndStrategyAndWhitelistStrategy`
before `_deployCredibleAlignedLayerContracts`: in the concrete run on
`sampleInputs`, Phase-B events precede every proxy-shell event. -/
theorem phaseA_before_phaseB_false :
    allPBeforeQ isPhaseAShellEvent isPhaseBEvent (runScript sampleInputs).events = false := by
  decide

/-- C2 (amended): in every run, Phase B (the ERC20 mock, its strategy, and
the allow-list registration) fully completes before Phase A (the
upgradeable proxy shells) begins. -/
theorem phaseB_completes_before_phaseA (inp : DeployInputs) :
    allPBeforeQ isPhaseBEvent isPhaseAShellEvent (runScript inp).events = true :=
  rfl

/-- C3 counterexample: the claim states the final address of every deployed
component is serialized into the output manifest, but in the concrete run on
`sampleInputs` the BLS pubkey registry, index registry and stake registry
addresses never appear among the serialized addresses. -/
theorem every_component_serialized_false :
    everyComponentSerialized (runScript sampleInputs) = false := by
  decide

/-- C3 (amended): the output manifest serializes exactly eight addresses —
the ERC20 mock, the strategy, and the service manager, task manager and
registry coordinator proxies each with their implementation — and the
BLS pubkey registry, index registry and stake registry proxy addresses are
not serialized. -/
theorem manifest_serializes_eight_addresses (inp : DeployInputs) :
    serializedPairs (runScript inp).events =
      [("erc20Mock", (runScript inp).erc20Mock),
        ("erc20MockStrategy", (runScript inp).erc20MockStrategy),
        ("alignedLayerServiceManager", (runScript inp).credibleAlignedLayerServiceManager),
        ("alignedLayerServiceManagerImplementation",
          (runScript inp).credibleAlignedLayerServiceManagerImplementation),
        ("alignedLayerTaskManager", (runScript inp).credibleAlignedLayerTaskManager),
        ("alignedLayerTaskManagerImplementation",
          (runScript inp).credibleAlignedLayerTaskManagerImplementation),
        ("registryCoordinator", (runScript inp).registryCoordinator),
        ("registryCoordinatorImplementation",
          (runScript inp).registryCoordinatorImplementation)] ∧
    (runScript inp).blsPubkeyRegistry ∉
      ((serializedPairs (runScript inp).events).map Prod.snd) ∧
    (runScript inp).indexRegistry ∉
      ((serializedPairs (runScript inp).events).map Prod.snd) ∧
    (runScript inp).stakeRegistry ∉
      ((serializedPairs (runScript inp).events).map Prod.snd) := by
  have hs : serializedPairs (runScript inp).events =
      [("erc20Mock", inp.startAddr),
        ("erc20MockStrategy", inp.startAddr + 1),
        ("alignedLayerServiceManager", inp.startAddr + 5),
        ("alignedLayerServiceManagerImplementation", inp.startAddr + 15),
        ("alignedLayerTaskManager", inp.startAddr + 6),
        ("alignedLayerTaskManagerImplementation", inp.startAddr + 16),
        ("registryCoordinator", inp.startAddr + 7),
        ("registryCoordinatorImplementation", inp.startAddr + 12)] := rfl
  refine ⟨rfl, ?_, ?_, ?_⟩ <;> rw [hs] <;> simp [runScript]

/-- C7: in every run, all six upgradeable proxies are deployed before any
implementation contract (`allPBeforeQ`), each shell is a
`TransparentUpgradeableProxy` pointing at the `EmptyContract` and
administered by the shared `ProxyAdmin` (events 6-11 of the trace), and
every one of the six implementation constructors (events 12, 14, 16, 18,
20, 22) receives, for each component it references, that component's
Phase-A proxy address: the stake registry implementation receives the
registry coordinator and service manager proxies while the registry
coordinator implementation receives the stake registry, BLS pubkey
registry and index registry proxies (mutual reference between the stake
registry and the registry coordinator), the BLS pubkey registry, index
registry and task manager implementations receive the registry coordinator
proxy, and the service manager implementation receives the registry
coordinator and task manager proxies; the remaining constructor arguments
are the externally supplied addresses (strategy manager, slasher, pubkey
compendium) or constants. -/
theorem shells_first_and_mutual_proxy_refs (inp : DeployInputs) :
    allPBeforeQ isPhaseAShellEvent isImplDeployEvent (runScript inp).events = true ∧
    ((runScript inp).events[3]? =
      some (Ev.newProxyAdmin (runScript inp).credibleAlignedLayerProxyAdmin) ∧
    (runScript inp).events[5]? =
      some (Ev.newEmptyContract (runScript inp).emptyContract) ∧
    (runScript inp).events[6]? = some (Ev.newTransparentProxy
      (runScript inp).credibleAlignedLayerServiceManager
      (runScript inp).emptyContract (runScript inp).credibleAlignedLayerProxyAdmin "" []) ∧
    (runScript inp).events[7]? = some (Ev.newTransparentProxy
      (runScript inp).credibleAlignedLayerTaskManager
      (runScript inp).emptyContract (runScript inp).credibleAlignedLayerProxyAdmin "" []) ∧
    (runScript inp).events[8]? = some (Ev.newTransparentProxy
      (runScript inp).registryCoordinator
      (runScript inp).emptyContract (runScript inp).credibleAlignedLayerProxyAdmin "" []) ∧
    (runScript inp).events[9]? = some (Ev.newTransparentProxy
      (runScript inp).blsPubkeyRegistry
      (runScript inp).emptyContract (runScript inp).credibleAlignedLayerProxyAdmin "" []) ∧
    (runScript inp).events[10]? = some (Ev.newTransparentProxy
      (runScript inp).indexRegistry
      (runScript inp).emptyContract (runScript inp).credibleAlignedLayerProxyAdmin "" []) ∧
    (runScript inp).events[11]? = some (Ev.newTransparentProxy
      (runScript inp).stakeRegistry
      (runScript inp).emptyContract (runScript inp).credibleAlignedLayerProxyAdmin "" [])) ∧
    ((runScript inp).events[12]? = some (Ev.newStakeRegistryImpl
      (runScript inp).stakeRegistryImplementation
      (runScript inp).registryCoordinator
      inp.strategyManager
      (runScript inp).credibleAlignedLayerServiceManager) ∧
    (runScript inp).events[14]? = some (Ev.newRegistryCoordinatorImpl
      (runScript inp).registryCoordinatorImplementation
      inp.slasher
      (runScript inp).credibleAlignedLayerServiceManager
      (runScript inp).stakeRegistry
      (runScript inp).blsPubkeyRegistry
      (runScript inp).indexRegistry) ∧
    (runScript inp).events[16]? = some (Ev.newBLSPubkeyRegistryImpl
      (runScript inp).blsPubkeyRegistryImplementation
      (runScript inp).registryCoordinator
      inp.pubkeyCompendium) ∧
    (runScript inp).events[18]? = some (Ev.newIndexRegistryImpl
      (runScript inp).indexRegistryImplementation
      (runScript inp).registryCoordinator) ∧
    (runScript inp).events[20]? = some (Ev.newServiceManagerImpl
      (runScript inp).credibleAlignedLayerServiceManagerImplementation
      (runScript inp).registryCoordinator
      inp.slasher
      (runScript inp).credibleAlignedLayerTaskManager) ∧
    (runScript inp).events[22]? = some (Ev.newTaskManagerImpl
      (runScript inp).credibleAlignedLayerTaskManagerImplementation
      (runScript inp).registryCoordinator
      TASK_RESPONSE_WINDOW_BLOCK)) :=
  ⟨rfl, ⟨rfl, rfl, rfl, rfl, rfl, rfl, rfl, rfl⟩, rfl, rfl, rfl, rfl, rfl, rfl⟩

end AlignedLayer
